import Mathlib

/-! Shallow embedding of the session supervisor in src/index.js: the in-memory
session map, the on-disk data directory, the scheduled restart timers, and the
request handlers and connection-event handlers that manipulate them.  Machine
state is explicit; asynchronous effects (timers, event emission, file
deletion) are recorded in the returned state or outcome structures. -/

namespace WpServer

/-- Parsed content of a session folder data.json, as written by the
/send-message route (src/index.js:91-97): name, targetNumber, targetType, the
newline-split nonempty message lines, and delayTime in seconds. -/
structure SessionData where
  name : String
  targetNumber : String
  targetType : String
  messages : List String
  delayTime : Nat
deriving DecidableEq

/-- One session folder under data/: the stored creds.json content when the
file exists, and the parsed data.json when it exists and parses. -/
structure SessionFolder where
  creds : Option String
  data : Option SessionData
deriving DecidableEq

/-- The mutable server state: activeSessions is the JS Map from session id to
socket handle (src/index.js:16; handles are modelled as Nat tags), dataDir is
the data/ directory keyed by session id, and timers holds the pending
setTimeout or setImmediate callbacks to safeStartWhatsAppSession, as pairs of
delay in milliseconds and session id. -/
structure ServerState where
  activeSessions : List (String × Nat)
  dataDir : List (String × SessionFolder)
  timers : List (Nat × String)
deriving DecidableEq

/-- JS Map.get on an insertion-ordered association list. -/
def mapGet : List (String × α) → String → Option α
  | [], _ => none
  | p :: rest, k => if p.1 == k then some p.2 else mapGet rest k

/-- JS Map.has. -/
def mapHas (m : List (String × α)) (k : String) : Bool :=
  (mapGet m k).isSome

/-- JS Map.set: update the existing entry in place, else append. -/
def mapSet : List (String × α) → String → α → List (String × α)
  | [], k, v => [(k, v)]
  | p :: rest, k, v => if p.1 == k then (k, v) :: rest else p :: mapSet rest k v

/-- JS Map.delete; also models removal of a directory entry. -/
def mapDelete : List (String × α) → String → List (String × α)
  | [], _ => []
  | p :: rest, k => if p.1 == k then mapDelete rest k else p :: mapDelete rest k

/-- Outcome of the /stop-session/:sessionId route: the HTTP status sent, the
socket handle that received the emitted close signal when there was one, and
the state after the handler ran. -/
structure StopOutcome where
  status : Nat
  closeSignaled : Option Nat
  state : ServerState
deriving DecidableEq

/-- The /stop-session/:sessionId handler (src/index.js:51-65).  When the id is
in activeSessions: emit close on the socket, delete the id from the map,
remove the session folder best-effort (rmdirOk says whether fs.rmdir
succeeded; a failure is only logged), and answer 200.  Otherwise answer 404
and change nothing. -/
def stopSession (st : ServerState) (sessionId : String) (rmdirOk : Bool) : StopOutcome :=
  match mapGet st.activeSessions sessionId with
  | some socket =>
    { status := 200
      closeSignaled := some socket
      state := { st with
        activeSessions := mapDelete st.activeSessions sessionId
        dataDir := if rmdirOk then mapDelete st.dataDir sessionId else st.dataDir } }
  | none => { status := 404, closeSignaled := none, state := st }

/-- handleSessionClosure (src/index.js:171-182).  statusCode models the
optional chain lastDisconnect.error.output.statusCode.  On 401: remove the
session folder (rmOk says whether fs.rm succeeded; a failure is only logged);
activeSessions and timers are untouched.  On any other status: schedule
safeStartWhatsAppSession after 60000 ms; map and folder untouched. -/
def handleSessionClosure (st : ServerState) (sessionId : String)
    (statusCode : Option Nat) (rmOk : Bool) : ServerState :=
  if statusCode == some 401 then
    { st with dataDir := if rmOk then mapDelete st.dataDir sessionId else st.dataDir }
  else
    { st with timers := st.timers ++ [(60000, sessionId)] }

/-- The load-and-register phase of startWhatsAppSession (src/index.js:109-158).
Reading and parsing data.json is modelled by the data field of the session
folder; socket is the fresh handle returned by makeWASocket.  On success the
handle is stored with activeSessions.set (line 131) — a plain set, with no
already-registered check.  On a failure to load, the catch block schedules
safeStartWhatsAppSession after 60000 ms (line 156). -/
def startWhatsAppSession (st : ServerState) (sessionId : String) (socket : Nat) : ServerState :=
  match (mapGet st.dataDir sessionId).bind SessionFolder.data with
  | some _ => { st with activeSessions := mapSet st.activeSessions sessionId socket }
  | none => { st with timers := st.timers ++ [(60000, sessionId)] }

/-- safeStartWhatsAppSession (src/index.js:184-191).  startWhatsAppSession
catches every error internally, so the awaited call never rejects and the
catch here, with its 10000 ms retry, is unreachable: the wrapper reduces to
the wrapped call. -/
def safeStartWhatsAppSession (st : ServerState) (sessionId : String) (socket : Nat) : ServerState :=
  startWhatsAppSession st sessionId socket

/-- Target address resolution in the open handler (src/index.js:138). -/
def resolveTargetJid (targetType targetNumber : String) : String :=
  if targetType == "group" then targetNumber ++ "@g.us"
  else targetNumber ++ "@s.whatsapp.net"

/-- Result reported by the transport for one socket.sendMessage call. -/
inductive SendOutcome
  | ok
  | fail
deriving DecidableEq

/-- JS template interpolation of a possibly-undefined value. -/
def jsStr : Option String → String
  | some s => s
  | none => "undefined"

/-- Observable effects of one sendMessage call: the text delivered when the
transport accepted it, and the awaited pause in milliseconds. -/
structure SendEffects where
  sentText : Option String
  waitedMs : Nat
deriving DecidableEq

/-- sendMessage (src/index.js:160-169): try to send the interpolated text and
then delay(delayTime * 1000); on a transport error, log and delay(5000).  Both
paths return normally, so the result is always ok — a delivery error never
escapes to the caller. -/
def sendMessage (name : String) (message : Option String) (delayTime : Nat) :
    SendOutcome → Except String SendEffects
  | .ok => .ok { sentText := some (name ++ ": " ++ jsStr message), waitedMs := delayTime * 1000 }
  | .fail => .ok { sentText := none, waitedMs := 5000 }

/-- Whether an Except value is a normal return. -/
def exceptOk : Except ε α → Bool
  | .ok _ => true
  | .error _ => false

/-- The for-loop condition at src/index.js:140:
messages.length && activeSessions.has(sessionId) — the truthiness of the
constant messages.length, not a comparison of the index i with it. -/
def sendLoopCond (messages : List String) (registered : Bool) : Bool :=
  (messages.length != 0) && registered

/-- iterExecutes messages name delayTime reg out n decides whether iteration n
of the send loop (src/index.js:140-143) runs: the loop condition held at every
check up to n (reg j gives activeSessions.has(sessionId) at check j) and every
earlier awaited sendMessage returned without throwing (out j is the transport
outcome at iteration j; messages.get? j is messages[j], none standing for the
JS undefined read past the end). -/
def iterExecutes (messages : List String) (name : String) (delayTime : Nat)
    (reg : Nat → Bool) (out : Nat → SendOutcome) : Nat → Bool
  | 0 => sendLoopCond messages (reg 0)
  | n + 1 =>
    iterExecutes messages name delayTime reg out n
      && exceptOk (sendMessage name (messages.get? n) delayTime (out n))
      && sendLoopCond messages (reg (n + 1))

/-- The stored creds.json content of a session folder; none when the folder or
the file is missing, in which case fs.readFile throws. -/
def storedCreds (dataDir : List (String × SessionFolder)) (sessionId : String) : Option String :=
  (mapGet dataDir sessionId).bind SessionFolder.creds

/-- isDuplicateCreds (src/index.js:39-48): compare the uploaded content
credsHash against data/{id}/creds.json for each active session in insertion
order; a failing read throws (error), a match returns true, exhaustion returns
false. -/
def isDuplicateCreds (dataDir : List (String × SessionFolder)) :
    List (String × Nat) → String → Except Unit Bool
  | [], _ => .ok false
  | (sessionId, _) :: rest, credsHash =>
    match storedCreds dataDir sessionId with
    | none => .error ()
    | some c => if c == credsHash then .ok true else isDuplicateCreds dataDir rest credsHash

/-- Outcome of the /send-message route: the HTTP status, whether the uploaded
creds temp file was unlinked, the allocated session id when one was, and the
state after the handler. -/
structure StartOutcome where
  status : Nat
  uploadedCredsDeleted : Bool
  newSessionId : Option String
  state : ServerState
deriving DecidableEq

/-- The /send-message handler (src/index.js:73-106).  Duplicate creds: unlink
the upload and answer 400, before any session id is allocated.  A thrown error
— such as an unreadable stored creds.json during the duplicate scan — reaches
the outer catch: 500, nothing deleted, nothing created.  Otherwise allocate
session_{now}, create the folder with the creds copy and data.json (messages
are the nonempty newline-split lines of the message file), schedule
safeStartWhatsAppSession via setImmediate (delay 0), and answer 200. -/
def sendMessageRoute (st : ServerState) (name targetNumber targetType : String)
    (delayTime : Nat) (credsContent msgFileContent : String) (now : Nat) : StartOutcome :=
  match isDuplicateCreds st.dataDir st.activeSessions credsContent with
  | .error _ => { status := 500, uploadedCredsDeleted := false, newSessionId := none, state := st }
  | .ok true => { status := 400, uploadedCredsDeleted := true, newSessionId := none, state := st }
  | .ok false =>
    let sessionId := "session_" ++ toString now
    let messages := (msgFileContent.splitOn "\n").filter (fun s => s != "")
    { status := 200
      uploadedCredsDeleted := false
      newSessionId := some sessionId
      state := { st with
        dataDir := mapSet st.dataDir sessionId
          { creds := some credsContent
            data := some { name := name, targetNumber := targetNumber,
                           targetType := targetType, messages := messages,
                           delayTime := delayTime } }
        timers := st.timers ++ [(0, sessionId)] } }

/-- A data.json record used in concrete examples. -/
def exampleData : SessionData :=
  { name := "n", targetNumber := "5", targetType := "single", messages := ["a"], delayTime := 1 }

/-- A session folder used in concrete examples. -/
def exampleFolder : SessionFolder :=
  { creds := some "C", data := some exampleData }

theorem mapGet_mapSet_self (m : List (String × α)) (k : String) (v : α) :
    mapGet (mapSet m k v) k = some v := by
  induction m with
  | nil => simp [mapSet, mapGet]
  | cons p rest ih =>
    cases h : p.1 == k with
    | true => simp [mapSet, h, mapGet]
    | false => simp [mapSet, h, mapGet, ih]

theorem mapGet_mapDelete_self (m : List (String × α)) (k : String) :
    mapGet (mapDelete m k) k = none := by
  induction m with
  | nil => simp [mapDelete, mapGet]
  | cons p rest ih =>
    cases h : p.1 == k with
    | true => simp [mapDelete, h, ih]
    | false => simp [mapDelete, h, mapGet, ih]

theorem keys_mapSet_of_has (m : List (String × α)) (k : String) (v : α)
    (h : mapHas m k = true) : (mapSet m k v).map Prod.fst = m.map Prod.fst := by
  induction m with
  | nil => simp [mapHas, mapGet] at h
  | cons p rest ih =>
    cases hpk : p.1 == k with
    | true =>
      have hk : p.1 = k := by simpa using hpk
      simp [mapSet, hpk, hk]
    | false =>
      have hrest : mapHas rest k = true := by
        simpa [mapHas, mapGet, hpk] using h
      simp [mapSet, hpk, ih hrest]

theorem mapSet_of_not_has (m : List (String × α)) (k : String) (v : α)
    (h : mapHas m k = false) : mapSet m k v = m ++ [(k, v)] := by
  induction m with
  | nil => simp [mapSet]
  | cons p rest ih =>
    cases hpk : p.1 == k with
    | true => simp [mapHas, mapGet, hpk] at h
    | false =>
      have hrest : mapHas rest k = false := by
        simpa [mapHas, mapGet, hpk] using h
      simp [mapSet, hpk, ih hrest]

theorem not_mem_keys_of_not_has (m : List (String × α)) (k : String)
    (h : mapHas m k = false) : k ∉ m.map Prod.fst := by
  induction m with
  | nil => simp
  | cons p rest ih =>
    cases hpk : p.1 == k with
    | true => simp [mapHas, mapGet, hpk] at h
    | false =>
      have hrest : mapHas rest k = false := by
        simpa [mapHas, mapGet, hpk] using h
      have hne : p.1 ≠ k := by simpa using hpk
      simp only [List.map_cons, List.mem_cons]
      intro hmem
      rcases hmem with hmem | hmem
      · exact hne hmem.symm
      · exact ih hrest hmem

theorem keys_nodup_mapSet (m : List (String × α)) (k : String) (v : α)
    (h : (m.map Prod.fst).Nodup) : ((mapSet m k v).map Prod.fst).Nodup := by
  cases hhas : mapHas m k with
  | true =>
    rw [keys_mapSet_of_has m k v hhas]
    exact h
  | false =>
    rw [mapSet_of_not_has m k v hhas, List.map_append]
    simp only [List.map_cons, List.map_nil]
    rw [← List.concat_eq_append]
    exact List.Nodup.concat (not_mem_keys_of_not_has m k hhas) h

theorem iterExecutes_length_pos (messages : List String) (name : String) (delayTime : Nat)
    (reg : Nat → Bool) (out : Nat → SendOutcome) (k : Nat)
    (h : iterExecutes messages name delayTime reg out k = true) :
    (messages.length != 0) = true := by
  induction k with
  | zero =>
    simp [iterExecutes, sendLoopCond, Bool.and_eq_true] at h
    simpa using h.1
  | succ k ih =>
    simp only [iterExecutes, Bool.and_eq_true] at h
    exact ih h.1.1

theorem isDuplicateCreds_ok_true (dataDir : List (String × SessionFolder))
    (sessions : List (String × Nat)) (content : String)
    (hread : ∀ p ∈ sessions, (storedCreds dataDir p.1).isSome = true)
    (hdup : ∃ p ∈ sessions, storedCreds dataDir p.1 = some content) :
    isDuplicateCreds dataDir sessions content = .ok true := by
  induction sessions with
  | nil =>
    rcases hdup with ⟨p, hp, _⟩
    cases hp
  | cons q rest ih =>
    obtain ⟨c, hc⟩ := Option.isSome_iff_exists.mp (hread q (List.mem_cons_self q rest))
    by_cases hqc : c = content
    · subst hqc
      simp [isDuplicateCreds, hc]
    · have hbeq : (c == content) = false := by
        simpa using hqc
      rcases hdup with ⟨p, hp, hpc⟩
      rcases List.mem_cons.mp hp with hp1 | hp1
      · rw [hp1] at hpc
        rw [hpc] at hc
        exact absurd (Option.some.inj hc) fun he => hqc he.symm
      · have := ih (fun r hr => hread r (List.mem_cons_of_mem q hr)) ⟨p, hp1, hpc⟩
        cases q with
        | mk qid qh =>
          simp only [isDuplicateCreds, hc, hbeq]
          simpa using this

/-- C1: the send loop does not terminate when the message sequence is
exhausted.  With the one-message sequence ["a"], the session never stopped and
every send accepted, every iteration n of the loop at src/index.js:140-143
executes: the loop condition tests the truthiness of messages.length and never
compares the index i with it, so the loop runs past the end of the sequence
forever (from index 1 on it sends the interpolation of undefined) instead of
attempting each message exactly once and stopping at exhaustion. -/
theorem sendLoop_runs_past_exhaustion (n : Nat) :
    iterExecutes ["a"] "n" 1 (fun _ => true) (fun _ => SendOutcome.ok) n = true := by
  induction n with
  | zero => decide
  | succ n ih =>
    simp [iterExecutes, ih, sendMessage, exceptOk, sendLoopCond]

/-- C2 counterexample: a start attempt that finds the id already registered
does not abort, and the existing handle does not remain the registered one.
With "s" registered with handle 1 and a loadable record on disk,
startWhatsAppSession replaces the registration: the handle mapped to "s"
afterwards is the new socket 2, not 1. -/
theorem startSession_overwrites_existing_handle :
    mapGet (startWhatsAppSession
      { activeSessions := [("s", 1)]
        dataDir := [("s", exampleFolder)]
        timers := [] } "s" 2).activeSessions "s" = some 2 ∧
    ¬ mapGet (startWhatsAppSession
      { activeSessions := [("s", 1)]
        dataDir := [("s", exampleFolder)]
        timers := [] } "s" 2).activeSessions "s" = some 1 := by
  decide

/-- C2 amended: at most one handle per id is indeed maintained — Map.set keeps
the key list duplicate-free — but a start attempt whose record loads always
registers its own socket as the handle for the id, replacing any existing
registration rather than aborting in its favour. -/
theorem startSession_registration_unique (st : ServerState) (sessionId : String) (socket : Nat)
    (hload : ((mapGet st.dataDir sessionId).bind SessionFolder.data).isSome = true)
    (hnodup : (st.activeSessions.map Prod.fst).Nodup) :
    ((startWhatsAppSession st sessionId socket).activeSessions.map Prod.fst).Nodup ∧
    mapGet (startWhatsAppSession st sessionId socket).activeSessions sessionId = some socket := by
  rcases Option.isSome_iff_exists.mp hload with ⟨d, hd⟩
  constructor
  · simp only [startWhatsAppSession, hd]
    exact keys_nodup_mapSet _ _ _ hnodup
  · simp only [startWhatsAppSession, hd]
    exact mapGet_mapSet_self _ _ _

theorem startSession_registration_unique_witness :
    (((startWhatsAppSession
      { activeSessions := [("s", 1)]
        dataDir := [("s", exampleFolder)]
        timers := [] } "s" 2).activeSessions.map Prod.fst).Nodup) ∧
    mapGet (startWhatsAppSession
      { activeSessions := [("s", 1)]
        dataDir := [("s", exampleFolder)]
        timers := [] } "s" 2).activeSessions "s" = some 2 :=
  startSession_registration_unique
    { activeSessions := [("s", 1)], dataDir := [("s", exampleFolder)], timers := [] }
    "s" 2 (by decide) (by decide)

/-- C3 counterexample: after a closed event with status 401 for "s" (folder
removal succeeding), the persisted storage is gone and no restart is
scheduled, but the session id is still registered in activeSessions — not
absent from the session store as the claim states. -/
theorem authClosure_leaves_id_registered :
    handleSessionClosure
      { activeSessions := [("s", 1)], dataDir := [("s", exampleFolder)], timers := [] }
      "s" (some 401) true =
      { activeSessions := [("s", 1)], dataDir := [], timers := [] } ∧
    mapHas (handleSessionClosure
      { activeSessions := [("s", 1)], dataDir := [("s", exampleFolder)], timers := [] }
      "s" (some 401) true).activeSessions "s" = true := by
  decide

/-- C3 amended: a closed event with status 401 deletes the persisted storage
(when fs.rm succeeds) and schedules no restart, but it leaves the session id
registered in activeSessions and the timers untouched: the handler never
removes the id from the session store. -/
theorem authClosure_spec (st : ServerState) (sessionId : String) (rmOk : Bool) :
    handleSessionClosure st sessionId (some 401) rmOk =
      { st with dataDir := if rmOk then mapDelete st.dataDir sessionId else st.dataDir } := by
  simp [handleSessionClosure]

/-- C4 counterexample: after a closed event with a non-401 status for "s", the
session id is still registered in activeSessions — the handler schedules the
60-second restart but never unregisters the id from the session store. -/
theorem recoverableClosure_keeps_id_registered :
    handleSessionClosure
      { activeSessions := [("s", 1)], dataDir := [("s", exampleFolder)], timers := [] }
      "s" (some 428) true =
      { activeSessions := [("s", 1)], dataDir := [("s", exampleFolder)],
        timers := [(60000, "s")] } ∧
    mapHas (handleSessionClosure
      { activeSessions := [("s", 1)], dataDir := [("s", exampleFolder)], timers := [] }
      "s" (some 428) true).activeSessions "s" = true := by
  decide

/-- C4 amended: a closed event whose status is not 401 schedules exactly one
restart of the start routine after the fixed 60000 ms backoff and nothing
else: the storage is untouched and the id is not unregistered from
activeSessions. -/
theorem recoverableClosure_spec (st : ServerState) (sessionId : String)
    (statusCode : Option Nat) (rmOk : Bool) (h : statusCode ≠ some 401) :
    handleSessionClosure st sessionId statusCode rmOk =
      { st with timers := st.timers ++ [(60000, sessionId)] } := by
  have hb : (statusCode == some 401) = false := by
    simpa using h
  simp [handleSessionClosure, hb]

theorem recoverableClosure_spec_witness :
    handleSessionClosure
      { activeSessions := [("s", 1)], dataDir := [], timers := [] }
      "s" (some 428) true =
      { activeSessions := [("s", 1)], dataDir := [], timers := [(60000, "s")] } :=
  recoverableClosure_spec
    { activeSessions := [("s", 1)], dataDir := [], timers := [] }
    "s" (some 428) true (by decide)

/-- C5: stopping does not suppress a pending scheduled restart.  In a state
with "s" registered and a restart timer (60000 ms, "s") already scheduled by
an earlier recoverable closure, stopSession succeeds (status 200) and removes
the id, yet the timer list is unchanged — the restart is still pending — and
when that timer fires, safeStartWhatsAppSession runs again for the stopped id
(its storage now deleted, so the attempt schedules yet another 60000 ms
retry), contradicting the claim that no previously scheduled restart timer
ever fires a new start after a successful stop. -/
theorem stop_does_not_cancel_restart_timer :
    (stopSession
      { activeSessions := [("s", 1)], dataDir := [("s", exampleFolder)],
        timers := [(60000, "s")] } "s" true).status = 200 ∧
    (stopSession
      { activeSessions := [("s", 1)], dataDir := [("s", exampleFolder)],
        timers := [(60000, "s")] } "s" true).state.timers = [(60000, "s")] ∧
    (safeStartWhatsAppSession
      (stopSession
        { activeSessions := [("s", 1)], dataDir := [("s", exampleFolder)],
          timers := [(60000, "s")] } "s" true).state "s" 2).timers =
      [(60000, "s"), (60000, "s")] := by
  decide

/-- C6: /stop-session answers 404 exactly when the id is not registered; on a
registered id it signals close to the registered handle, removes the id from
activeSessions, deletes the session folder best-effort — still answering 200
when the deletion fails — and a second stop on the same id answers 404 and
changes nothing further. -/
theorem stopSession_spec (st : ServerState) (sessionId : String) (rmdirOk rmdirOk2 : Bool) :
    ((stopSession st sessionId rmdirOk).status = 404 ↔
      mapHas st.activeSessions sessionId = false) ∧
    (mapHas st.activeSessions sessionId = true →
      (stopSession st sessionId rmdirOk).status = 200 ∧
      (stopSession st sessionId rmdirOk).closeSignaled = mapGet st.activeSessions sessionId ∧
      mapHas (stopSession st sessionId rmdirOk).state.activeSessions sessionId = false ∧
      (stopSession st sessionId rmdirOk).state.dataDir =
        (if rmdirOk then mapDelete st.dataDir sessionId else st.dataDir) ∧
      stopSession (stopSession st sessionId rmdirOk).state sessionId rmdirOk2 =
        { status := 404, closeSignaled := none,
          state := (stopSession st sessionId rmdirOk).state }) := by
  cases hget : mapGet st.activeSessions sessionId with
  | none =>
    constructor
    · simp [stopSession, hget, mapHas]
    · intro hhas
      simp [mapHas, hget] at hhas
  | some socket =>
    constructor
    · simp [stopSession, hget, mapHas]
    · intro _
      refine ⟨by simp [stopSession, hget], by simp [stopSession, hget], ?_, ?_, ?_⟩
      · simp [stopSession, hget, mapHas, mapGet_mapDelete_self]
      · simp [stopSession, hget]
      · simp [stopSession, hget, mapGet_mapDelete_self]

theorem stopSession_spec_witness :
    ((stopSession
      { activeSessions := [("s", 1)], dataDir := [("s", exampleFolder)], timers := [] }
      "s" false).status = 404 ↔
      mapHas [("s", (1 : Nat))] "s" = false) ∧
    (mapHas [("s", (1 : Nat))] "s" = true →
      (stopSession
        { activeSessions := [("s", 1)], dataDir := [("s", exampleFolder)], timers := [] }
        "s" false).status = 200 ∧
      (stopSession
        { activeSessions := [("s", 1)], dataDir := [("s", exampleFolder)], timers := [] }
        "s" false).closeSignaled = mapGet [("s", (1 : Nat))] "s" ∧
      mapHas (stopSession
        { activeSessions := [("s", 1)], dataDir := [("s", exampleFolder)], timers := [] }
        "s" false).state.activeSessions "s" = false ∧
      (stopSession
        { activeSessions := [("s", 1)], dataDir := [("s", exampleFolder)], timers := [] }
        "s" false).state.dataDir =
        (if false then mapDelete [("s", exampleFolder)] "s" else [("s", exampleFolder)]) ∧
      stopSession (stopSession
        { activeSessions := [("s", 1)], dataDir := [("s", exampleFolder)], timers := [] }
        "s" false).state "s" true =
        { status := 404, closeSignaled := none,
          state := (stopSession
            { activeSessions := [("s", 1)], dataDir := [("s", exampleFolder)], timers := [] }
            "s" false).state }) :=
  stopSession_spec
    { activeSessions := [("s", 1)], dataDir := [("s", exampleFolder)], timers := [] }
    "s" false true

/-- C7: a delivery failure at index k is absorbed locally — sendMessage
returns normally after the fixed 5000 ms error pause, so the failure never
propagates to its caller — and iteration k+1 of the send loop still executes,
provided the session is still registered at the next check. -/
theorem sendFailure_absorbed (messages : List String) (name : String) (delayTime : Nat)
    (reg : Nat → Bool) (out : Nat → SendOutcome) (k : Nat)
    (hk : iterExecutes messages name delayTime reg out k = true)
    (hreg : reg (k + 1) = true) (hout : out k = SendOutcome.fail) :
    sendMessage name (messages.get? k) delayTime (out k) =
      Except.ok { sentText := none, waitedMs := 5000 } ∧
    iterExecutes messages name delayTime reg out (k + 1) = true := by
  have hlen := iterExecutes_length_pos messages name delayTime reg out k hk
  constructor
  · rw [hout]
    rfl
  · simp [iterExecutes, hk, hout, sendMessage, exceptOk, sendLoopCond, hreg, hlen]

theorem sendFailure_absorbed_witness :
    sendMessage "n" (["a", "b"].get? 0) 1 SendOutcome.fail =
      Except.ok { sentText := none, waitedMs := 5000 } ∧
    iterExecutes ["a", "b"] "n" 1 (fun _ => true)
      (fun j => if j == 0 then SendOutcome.fail else SendOutcome.ok) 1 = true :=
  sendFailure_absorbed ["a", "b"] "n" 1 (fun _ => true)
    (fun j => if j == 0 then SendOutcome.fail else SendOutcome.ok) 0
    (by decide) rfl (by decide)

/-- C8 counterexample: a load failure retries after 60000 ms, not 10000 ms.
Starting "s" with an empty data directory fails to load data.json; the catch
at src/index.js:156 schedules the retry with delay 60000, and no 10000 ms
timer is ever scheduled — the 10000 ms catch inside safeStartWhatsAppSession
is unreachable because startWhatsAppSession catches its own errors. -/
theorem loadFailure_retry_is_60s_not_10s :
    (safeStartWhatsAppSession
      { activeSessions := [], dataDir := [], timers := [] } "s" 7).timers = [(60000, "s")] ∧
    ¬ ((10000, "s") ∈ (safeStartWhatsAppSession
      { activeSessions := [], dataDir := [], timers := [] } "s" 7).timers) := by
  decide

/-- C8 amended: a failure to load the SessionRecord at start is never surfaced
as a permanent failure — the start routine returns normally with the state
otherwise untouched — and it schedules exactly one delayed retry of the start
after the fixed 60-second (not 10-second) backoff; as every such failed
attempt again schedules a retry, retries are unbounded. -/
theorem loadFailure_schedules_retry (st : ServerState) (sessionId : String) (socket : Nat)
    (h : (mapGet st.dataDir sessionId).bind SessionFolder.data = none) :
    safeStartWhatsAppSession st sessionId socket =
      { st with timers := st.timers ++ [(60000, sessionId)] } := by
  simp [safeStartWhatsAppSession, startWhatsAppSession, h]

theorem loadFailure_schedules_retry_witness :
    safeStartWhatsAppSession
      { activeSessions := [], dataDir := [], timers := [] } "s" 7 =
      { activeSessions := [], dataDir := [], timers := [(60000, "s")] } :=
  loadFailure_schedules_retry
    { activeSessions := [], dataDir := [], timers := [] } "s" 7 (by decide)

/-- C9: the resolved delivery address is targetNumber@g.us when targetType is
the string group, and targetNumber@s.whatsapp.net for every other
targetType. -/
theorem resolveTargetJid_spec (targetType targetNumber : String) :
    (targetType = "group" →
      resolveTargetJid targetType targetNumber = targetNumber ++ "@g.us") ∧
    (targetType ≠ "group" →
      resolveTargetJid targetType targetNumber = targetNumber ++ "@s.whatsapp.net") := by
  constructor
  · intro h
    simp [resolveTargetJid, h]
  · intro h
    have hb : (targetType == "group") = false := by
      simpa using h
    simp [resolveTargetJid, hb]

theorem resolveTargetJid_spec_witness :
    resolveTargetJid "group" "123" = "123@g.us" ∧
    resolveTargetJid "single" "123" = "123@s.whatsapp.net" :=
  ⟨(resolveTargetJid_spec "group" "123").1 rfl,
   (resolveTargetJid_spec "single" "123").2 (by decide)⟩

/-- C10 counterexample: the uploaded content X is byte-identical to the stored
creds.json of the currently active session b, yet the request is not rejected
with 400 and the upload is not deleted: session a is also active but its
folder is gone — exactly the state a 401 closure leaves behind — so the
duplicate scan throws on reading data/a/creds.json and the outer catch answers
500 with the uploaded temp file left in place and nothing created. -/
theorem duplicateCreds_scan_answers_500 :
    (sendMessageRoute
      { activeSessions := [("a", 1), ("b", 2)]
        dataDir := [("b", { creds := some "X", data := none })]
        timers := [] } "n" "5" "single" 1 "X" "m" 99).status = 500 ∧
    (sendMessageRoute
      { activeSessions := [("a", 1), ("b", 2)]
        dataDir := [("b", { creds := some "X", data := none })]
        timers := [] } "n" "5" "single" 1 "X" "m" 99).uploadedCredsDeleted = false ∧
    storedCreds [("b", { creds := some "X", data := none })] "b" = some "X" ∧
    mapHas [("a", (1 : Nat)), ("b", 2)] "b" = true := by
  decide

/-- C10 amended: provided the stored creds.json of every currently active
session is readable, an upload byte-identical to the stored creds.json of some
active session is rejected with HTTP 400, the uploaded temp file is deleted,
and no session id is allocated, no folder created and no record persisted —
the server state is unchanged. -/
theorem duplicate_creds_rejected (st : ServerState) (name targetNumber targetType : String)
    (delayTime : Nat) (credsContent msgFileContent : String) (now : Nat)
    (hread : ∀ p ∈ st.activeSessions, (storedCreds st.dataDir p.1).isSome = true)
    (hdup : ∃ p ∈ st.activeSessions, storedCreds st.dataDir p.1 = some credsContent) :
    sendMessageRoute st name targetNumber targetType delayTime credsContent msgFileContent now =
      { status := 400, uploadedCredsDeleted := true, newSessionId := none, state := st } := by
  have hscan := isDuplicateCreds_ok_true st.dataDir st.activeSessions credsContent hread hdup
  simp [sendMessageRoute, hscan]

theorem duplicate_creds_rejected_witness :
    sendMessageRoute
      { activeSessions := [("b", 2)]
        dataDir := [("b", { creds := some "X", data := none })]
        timers := [] } "n" "5" "single" 1 "X" "m" 99 =
      { status := 400, uploadedCredsDeleted := true, newSessionId := none,
        state :=
          { activeSessions := [("b", 2)]
            dataDir := [("b", { creds := some "X", data := none })]
            timers := [] } } :=
  duplicate_creds_rejected
    { activeSessions := [("b", 2)]
      dataDir := [("b", { creds := some "X", data := none })]
      timers := [] } "n" "5" "single" 1 "X" "m" 99 (by decide) (by decide)

end WpServer
